import Mathlib

/-! Shallow embedding of the DhandhoAI WhatsApp chemical-search server:
    the conversation state machine, the post-query filtering and ranking
    in performSearch, the inquiry correlation store, and the supplier
    fan-out in performSearchAndFormat.  External collaborators (the
    embedding model, the Pinecone vector index and the Twilio transport)
    are abstracted as an environment record: the metadata filter and the
    nearest-neighbour query run inside the index, so the environment
    carries the match list the index returns for the query. -/

/-- Decimal digits to a natural number (helper for the parseInt and
    parseFloat models). -/
def natOfDigits (ds : List Char) : Nat :=
  ds.foldl (fun a c => a * 10 + (c.toNat - 48)) 0

/-- Models String.prototype.trim. -/
def jsTrim (s : String) : String :=
  String.mk (((s.data.dropWhile Char.isWhitespace).reverse.dropWhile Char.isWhitespace).reverse)

/-- Models String.prototype.toLowerCase on the ASCII keywords the bot compares. -/
def lowerStr (s : String) : String := String.mk (s.data.map Char.toLower)

/-- Models String.prototype.startsWith. -/
def strStartsWith (s p : String) : Bool := p.data.isPrefixOf s.data

/-- Models String.prototype.slice(0, n). -/
def strTake (s : String) (n : Nat) : String := String.mk (s.data.take n)

/-- Models String.prototype.includes of sub inside s. -/
def isInfixChars (needle : List Char) : List Char → Bool
  | [] => needle.isEmpty
  | c :: rest => needle.isPrefixOf (c :: rest) || isInfixChars needle rest

/-- Models s.includes(sub). -/
def strIncludes (s sub : String) : Bool := isInfixChars sub.data s.data

/-- Models the regex test of the exact six digit pattern used for PIN codes. -/
def isSixDigits (s : String) : Bool := s.data.length == 6 && s.data.all Char.isDigit

/-- Leading digit run after the sign, as the parseInt value. -/
def jsParseIntCore (neg : Bool) (cs : List Char) : Option Int :=
  let ds := cs.takeWhile Char.isDigit
  if ds.isEmpty then none
  else some (if neg then -(natOfDigits ds : Int) else (natOfDigits ds : Int))

/-- Models JavaScript parseInt(s, 10): optional whitespace and sign, then a
    leading run of decimal digits, trailing characters ignored; none models
    NaN when no digit is found. -/
def jsParseInt (s : String) : Option Int :=
  match s.data.dropWhile Char.isWhitespace with
  | '-' :: r => jsParseIntCore true r
  | '+' :: r => jsParseIntCore false r
  | r => jsParseIntCore false r

/-- Integer part, optional fraction, as the parseFloat value. -/
def jsParseFloatCore (neg : Bool) (cs : List Char) : Option Rat :=
  let ip := cs.takeWhile Char.isDigit
  let rest := cs.dropWhile Char.isDigit
  let fp := match rest with
    | '.' :: r => r.takeWhile Char.isDigit
    | _ => []
  if ip.isEmpty && fp.isEmpty then none
  else
    let q : Rat :=
      if fp.isEmpty then (natOfDigits ip : Rat)
      else (natOfDigits ip : Rat) + (natOfDigits fp : Rat) / ((10 : Rat) ^ fp.length)
    some (if neg then -q else q)

/-- Models JavaScript parseFloat on decimal literals: optional whitespace and
    sign, digits, optional fraction, trailing characters ignored; none models
    NaN. Exponent forms, which the dialogue never prompts for, are not
    modelled. -/
def jsParseFloat (s : String) : Option Rat :=
  match s.data.dropWhile Char.isWhitespace with
  | '-' :: r => jsParseFloatCore true r
  | '+' :: r => jsParseFloatCore false r
  | r => jsParseFloatCore false r

/-- Scan for a hash immediately followed by a digit; the captured group is the
    maximal digit run after the hash. -/
def extractIdAux : List Char → Option String
  | [] => none
  | c :: rest =>
    if c = '#' then
      let ds := rest.takeWhile Char.isDigit
      if ds.isEmpty then extractIdAux rest else some (String.mk ds)
    else extractIdAux rest

/-- Models incomingMessage.match against the hash-digits correlation pattern,
    returning the first captured digit run. -/
def extractInquiryId (s : String) : Option String := extractIdAux s.data

/-- Models fromNumber.replace of the leading transport scheme: inbound Twilio
    addresses have the form whatsapp:number, where removing the first
    occurrence equals dropping the prefix. -/
def stripWhatsapp (s : String) : String :=
  if strStartsWith s "whatsapp:" then String.mk (s.data.drop 9) else s

/-- Association-list lookup, modelling a JavaScript object read obj[k]. -/
def lookupA {α : Type} (k : String) : List (String × α) → Option α
  | [] => none
  | (k2, v) :: r => if k2 = k then some v else lookupA k r

/-- Modelling the delete operator on a JavaScript object key. -/
def removeA {α : Type} (k : String) : List (String × α) → List (String × α)
  | [] => []
  | (k2, v) :: r => if k2 = k then removeA k r else (k2, v) :: removeA k r

/-- Modelling a JavaScript object assignment obj[k] = v. -/
def setA {α : Type} (k : String) (v : α) (l : List (String × α)) : List (String × α) :=
  (k, v) :: removeA k l

/-- The proximity preference stored by the PROXIMITY state: the source keeps
    the validated string, which is exactly one of same or pan. -/
inductive Proximity
  | same
  | pan
deriving DecidableEq, Repr

/-- The accumulated request draft session.data: none models an absent or null
    field. -/
structure Request where
  product_name : Option String := none
  category : Option String := none
  quantity : Option Rat := none
  pincode : Option String := none
  proximity : Option Proximity := none
deriving DecidableEq, Repr

/-- The conversation states of the per-buyer state machine. -/
inductive SState
  | START
  | PRODUCT_NAME
  | CATEGORY
  | QUANTITY
  | PINCODE
  | PROXIMITY
  | END
deriving DecidableEq, Repr

/-- One session record of the session store. -/
structure Session where
  state : SState
  data : Request
deriving DecidableEq, Repr

/-- The metadata of one Pinecone match that the webhook reads: the product
    name, the PIN code, the seller contact number (possibly absent) and the
    seller name. -/
structure MatchRec where
  productName : String
  pinCode : String
  sellerContact : Option String
  sellerName : String
deriving DecidableEq, Repr

/-- One contacted supplier remembered inside an inquiry record. -/
structure SupplierRef where
  number : Option String
  name : String
deriving DecidableEq, Repr

/-- One record of the inquiries correlation store. -/
structure Inquiry where
  user : String
  productName : Option String
  suppliers : List SupplierRef
deriving DecidableEq, Repr

/-- The two shared mutable stores of the server. -/
structure World where
  sessions : List (String × Session)
  inquiries : List (String × Inquiry)
deriving DecidableEq, Repr

/-- The external collaborators of one webhook invocation: whether the embedder
    call succeeds, whether the index query succeeds, the match list the index
    returns for the query (already under the metadata filter), and the fresh
    timestamp string used as the next inquiry id. -/
structure Env where
  embedOk : Bool
  indexOk : Bool
  indexMatches : List MatchRec
  freshId : String
deriving DecidableEq, Repr

/-- The fate of one webhook invocation: a reply sent back, or an exception
    escaping the handler (an unhandled rejection, no reply produced). -/
inductive Outcome
  | reply (msg : String)
  | crash
deriving DecidableEq, Repr

/-- The result of one webhook invocation: the stores after it, the outbound
    transport sends it performed (destination and body), and its outcome. -/
structure StepResult where
  world : World
  sends : List (String × String)
  out : Outcome
deriving DecidableEq, Repr

def welcomeMsg : String :=
  "Welcome to the Chemical Product Search! Connect with suppliers across India.\n\nYou can send \x27no\x27 or \x27stop\x27 at any time to exit.\n\nEnter part of the Product Name (e.g., \x27Sodium\x27, or send \x27skip\x27 to skip):"

def categoryPrompt : String :=
  "Enter the Product Category (e.g., \x27Industrial Chemicals\x27, or send \x27skip\x27 to skip):"

def quantityPrompt : String :=
  "How much do you need (in units, e.g., 500, or send \x27skip\x27 to skip):"

def invalidQuantityMsg : String :=
  "Please enter a valid non-negative number for quantity, or send \x27skip\x27 to skip."

def pincodePrompt : String :=
  "Enter your 6-digit PIN code (e.g., 390013, or send \x27skip\x27 to skip):"

def invalidPincodeMsg : String :=
  "Please enter a valid 6-digit PIN code, or send \x27skip\x27 to skip."

def proximityPrompt : String :=
  "Do you want suppliers from the same state (same) or anywhere in India (pan)? Send \x27same\x27 or \x27pan\x27:"

def invalidProximityMsg : String :=
  "Please send \x27same\x27 for same state or \x27pan\x27 for pan-India."

def newSearchMsg : String :=
  "Let\x27s start a new search.\n\nEnter part of the Product Name (e.g., \x27Sodium\x27, or send \x27skip\x27 to skip):"

def farewellMsg : String :=
  "Thank you for using the Chemical Product Search! Goodbye! Send \x27hello\x27 to start a new search."

def terminatedMsg : String :=
  "Search terminated. Goodbye! Send \x27hello\x27 to start a new search."

def searchAgainSuffix : String :=
  "\n\nDo you want to search again? Send \x27yes\x27 to start a new search."

def noSuppliersMsg : String := "No suppliers found matching your criteria."

def noContactsMsg : String := "No suppliers with contact numbers found."

def forwardedMsg : String := "Your quotation has been forwarded to the user."

def supplierNotPartyMsg : String := "Supplier not found for this inquiry."

def inquiryNotFoundMsg : String := "Inquiry not found."

def successMsg (inquiryId : String) (n : Nat) : String :=
  "We have sent your inquiry #" ++ inquiryId ++ " to " ++ toString n ++ " suppliers. You will receive their responses within 24 hours."

/-- The body sent to each supplier by sendInquiryToSupplier. -/
def inquiryBody (productName category : Option String) (quantity : Option Rat) (inquiryId : String) : String :=
  "Please provide your quotation for inquiry #" ++ inquiryId ++ ":\nProduct: " ++
    (match productName with | some p => if p = "" then "Not specified" else p | none => "Not specified") ++
  "\nCategory: " ++
    (match category with | some c => if c = "" then "Not specified" else c | none => "Not specified") ++
  "\nQuantity: " ++
    (match quantity with | some q => toString q | none => "Not specified") ++
  "\nSend your quotation via WhatsApp only, including the inquiry number."

/-- The product-name substring filter applied to the index matches when a
    product name was supplied (a falsy empty string applies no filter). -/
def filterByName (pn : Option String) (ms : List MatchRec) : List MatchRec :=
  match pn with
  | some p => if p = "" then ms else ms.filter (fun m => strIncludes (lowerStr m.productName) (lowerStr p))
  | none => ms

/-- Stable insertion step of the sort model. -/
def insertLE {α : Type} (le : α → α → Bool) (a : α) : List α → List α
  | [] => [a]
  | b :: l => if le a b then a :: b :: l else b :: insertLE le a l

/-- Stable sort by a boolean comparator, modelling Array.prototype.sort:
    ECMAScript requires a stable sort, and for a consistent comparator every
    stable sort produces exactly this result.  When the comparator is
    inconsistent (a NaN comparison value) ECMAScript leaves the order
    implementation-defined; this model fixes one stable order. -/
def sortLE {α : Type} (le : α → α → Bool) : List α → List α
  | [] => []
  | a :: l => insertLE le a (sortLE le l)

/-- The pan-India comparator as a before-or-equal relation: the sign of the
    difference of the absolute PIN distances; a NaN value (an unparsable PIN)
    compares as a tie, as a NaN comparator value does. -/
def panLE (userPin : Option Int) (a b : MatchRec) : Bool :=
  match userPin, jsParseInt a.pinCode, jsParseInt b.pinCode with
  | some u, some x, some y => decide ((x - u).natAbs ≤ (y - u).natAbs)
  | _, _, _ => true

/-- The absolute numeric PIN distance of a match from the requester PIN. -/
def panDist (u : Int) (m : MatchRec) : Nat := (((jsParseInt m.pinCode).getD 0) - u).natAbs

/-- performSearch after the index query: none models the embedder call
    throwing (it is outside every try block, so the exception propagates);
    an index-layer error is caught and returns the still-empty match list.
    The category and quantity metadata filters run inside the index, so the
    environment match list is already the filtered response. -/
def performSearch (env : Env) (data : Request) : Option (List MatchRec) :=
  if env.embedOk then
    if env.indexOk then
      let ms := filterByName data.product_name env.indexMatches
      match data.pincode, data.proximity with
      | some p, some prox =>
        if p = "" then some (ms.take 5)
        else
          match prox with
          | Proximity.same => some ((ms.filter (fun m => strStartsWith m.pinCode (strTake p 2))).take 5)
          | Proximity.pan => some ((sortLE (panLE (jsParseInt p)) ms).take 5)
      | _, _ => some (ms.take 5)
    else some []
  else none

/-- A truthy seller contact number, as the filter over mapped contact numbers
    keeps it. -/
def truthyContact : Option String → Option String
  | some s => if s = "" then none else some s
  | none => none

/-- performSearchAndFormat: runs the search, records the inquiry when any
    match exists (before the contact-number check), fans out to the truthy
    contact numbers, and builds the reply; none models the embedder exception
    propagating through (no reply). Returns the inquiry store, the outbound
    sends and the reply text. -/
def performSearchAndFormat (env : Env) (inqs : List (String × Inquiry)) (data : Request)
    (fromNumber : String) : Option (List (String × Inquiry) × List (String × String) × String) :=
  match performSearch env data with
  | none => none
  | some ms =>
    if ms.isEmpty then some (inqs, [], noSuppliersMsg)
    else
      let inqs2 := setA env.freshId
        ⟨fromNumber, data.product_name, ms.map (fun m => ⟨m.sellerContact, m.sellerName⟩)⟩ inqs
      let supplierNumbers := ms.filterMap (fun m => truthyContact m.sellerContact)
      if supplierNumbers.isEmpty then some (inqs2, [], noContactsMsg)
      else some (inqs2,
        supplierNumbers.map (fun n => (n, inquiryBody data.product_name data.category data.quantity env.freshId)),
        successMsg env.freshId supplierNumbers.length)

/-- The stored proximity for a validated preference string. -/
def proxOf (lower : String) : Proximity :=
  if lower = "same" then Proximity.same else Proximity.pan

/-- The outcome of the per-state switch: the session object after the turn,
    whether the store entry was deleted, the inquiry store, the outbound
    sends, and the outcome. -/
structure SwitchOut where
  session : Session
  removed : Bool
  inqs : List (String × Inquiry)
  sends : List (String × String)
  out : Outcome
deriving DecidableEq, Repr

/-- The per-state switch of the webhook, for a message that is neither a
    correlation reply nor a termination keyword. -/
def stepState (env : Env) (inqs : List (String × Inquiry)) (fromNumber incomingMessage lower : String)
    (session : Session) : SwitchOut :=
  match session.state with
  | SState.START =>
    ⟨⟨SState.PRODUCT_NAME, session.data⟩, false, inqs, [], Outcome.reply welcomeMsg⟩
  | SState.PRODUCT_NAME =>
    let d := if lower = "skip" then session.data else { session.data with product_name := some incomingMessage }
    ⟨⟨SState.CATEGORY, d⟩, false, inqs, [], Outcome.reply categoryPrompt⟩
  | SState.CATEGORY =>
    let d := if lower = "skip" then session.data else { session.data with category := some incomingMessage }
    ⟨⟨SState.QUANTITY, d⟩, false, inqs, [], Outcome.reply quantityPrompt⟩
  | SState.QUANTITY =>
    if lower = "skip" then
      ⟨⟨SState.PINCODE, { session.data with quantity := none }⟩, false, inqs, [], Outcome.reply pincodePrompt⟩
    else
      match jsParseFloat incomingMessage with
      | some q =>
        if 0 ≤ q then
          ⟨⟨SState.PINCODE, { session.data with quantity := some q }⟩, false, inqs, [], Outcome.reply pincodePrompt⟩
        else ⟨session, false, inqs, [], Outcome.reply invalidQuantityMsg⟩
      | none => ⟨session, false, inqs, [], Outcome.reply invalidQuantityMsg⟩
  | SState.PINCODE =>
    if lower = "skip" then
      let d := { session.data with pincode := none }
      match performSearchAndFormat env inqs d fromNumber with
      | some r => ⟨⟨SState.END, d⟩, false, r.1, r.2.1, Outcome.reply r.2.2⟩
      | none => ⟨⟨SState.PINCODE, d⟩, false, inqs, [], Outcome.crash⟩
    else if isSixDigits incomingMessage then
      ⟨⟨SState.PROXIMITY, { session.data with pincode := some incomingMessage }⟩, false, inqs, [],
        Outcome.reply proximityPrompt⟩
    else ⟨session, false, inqs, [], Outcome.reply invalidPincodeMsg⟩
  | SState.PROXIMITY =>
    if lower = "same" ∨ lower = "pan" then
      let d := { session.data with proximity := some (proxOf lower) }
      match performSearchAndFormat env inqs d fromNumber with
      | some r => ⟨⟨SState.END, d⟩, false, r.1, r.2.1, Outcome.reply r.2.2⟩
      | none => ⟨⟨SState.PROXIMITY, d⟩, false, inqs, [], Outcome.crash⟩
    else ⟨session, false, inqs, [], Outcome.reply invalidProximityMsg⟩
  | SState.END =>
    if lower = "yes" ∨ lower = "y" then
      ⟨⟨SState.START, {}⟩, false, inqs, [], Outcome.reply newSearchMsg⟩
    else
      ⟨⟨SState.END, session.data⟩, true, inqs, [], Outcome.reply farewellMsg⟩

/-- One webhook invocation: the correlation branch intercepts any message
    matching the hash-digits pattern; otherwise the conversation engine runs,
    with the search-again suffix appended whenever the in-memory session
    object ends the turn in state END and the message is not a termination
    keyword. -/
def handleMessage (env : Env) (w : World) (fromNumber body : String) : StepResult :=
  let incomingMessage := jsTrim body
  match extractInquiryId incomingMessage with
  | some inquiryId =>
    match lookupA inquiryId w.inquiries with
    | some inq =>
      let supplierNumber := stripWhatsapp fromNumber
      match inq.suppliers.find? (fun s => s.number == some supplierNumber) with
      | some sup =>
        let productName := match inq.productName with
          | some p => if p = "" then "the product" else p
          | none => "the product"
        let messageToUser := "Quotation for " ++ productName ++ " from " ++ sup.name ++
          " (" ++ supplierNumber ++ "): " ++ incomingMessage
        ⟨w, [(inq.user, messageToUser)], Outcome.reply forwardedMsg⟩
      | none => ⟨w, [], Outcome.reply supplierNotPartyMsg⟩
    | none => ⟨w, [], Outcome.reply inquiryNotFoundMsg⟩
  | none =>
    let sessions1 :=
      if lookupA fromNumber w.sessions = none ∨ lowerStr incomingMessage = "hello" then
        setA fromNumber ⟨SState.START, {}⟩ w.sessions
      else w.sessions
    let session := (lookupA fromNumber sessions1).getD ⟨SState.START, {}⟩
    let lower := lowerStr incomingMessage
    if lower = "no" ∨ lower = "stop" then
      ⟨⟨removeA fromNumber sessions1, w.inquiries⟩, [], Outcome.reply terminatedMsg⟩
    else
      let r := stepState env w.inquiries fromNumber incomingMessage lower session
      let outFinal : Outcome :=
        match r.out with
        | Outcome.reply m =>
          Outcome.reply (if r.session.state = SState.END ∧ lower ≠ "no" ∧ lower ≠ "stop" then
            m ++ searchAgainSuffix else m)
        | Outcome.crash => Outcome.crash
      let sessions2 := if r.removed then removeA fromNumber sessions1 else setA fromNumber r.session sessions1
      ⟨⟨sessions2, r.inqs⟩, r.sends, outFinal⟩

/-- A whole conversation: fold the webhook over the inbound messages of one
    buyer, tracking the stores. -/
def runConv (env : Env) (w : World) (fromNumber : String) (msgs : List String) : World :=
  msgs.foldl (fun wAcc m => (handleMessage env wAcc fromNumber m).world) w

theorem lookupA_setA_self {α : Type} (k : String) (v : α) (l : List (String × α)) :
    lookupA k (setA k v l) = some v := by
  simp [setA, lookupA]

theorem lookupA_removeA_self {α : Type} (k : String) (l : List (String × α)) :
    lookupA k (removeA k l) = none := by
  induction l with
  | nil => rfl
  | cons h t ih =>
    obtain ⟨k2, v⟩ := h
    by_cases hk : k2 = k
    · simpa [removeA, hk] using ih
    · simpa [removeA, hk, lookupA] using ih

theorem extractIdAux_eq_none (l : List Char) (h : ∀ c ∈ l, c ≠ '#') :
    extractIdAux l = none := by
  induction l with
  | nil => rfl
  | cons c rest ih =>
    have hc : c ≠ '#' := h c (List.mem_cons_self _ _)
    simp only [extractIdAux, if_neg hc]
    exact ih (fun x hx => h x (List.mem_cons_of_mem _ hx))

theorem extractInquiryId_eq_none_of_lower {s t : String} (h : lowerStr s = t)
    (ht : ('#' : Char) ∉ t.data) : extractInquiryId s = none := by
  apply extractIdAux_eq_none
  intro c hc hch
  subst hch
  have hmap : s.data.map Char.toLower = t.data := congrArg String.data h
  have hm : Char.toLower '#' ∈ t.data := hmap ▸ List.mem_map_of_mem _ hc
  have : ('#' : Char) ∈ t.data := by simpa using hm
  exact ht this

theorem removeA_removeA {α : Type} (k : String) (l : List (String × α)) :
    removeA k (removeA k l) = removeA k l := by
  induction l with
  | nil => rfl
  | cons h t ih =>
    obtain ⟨k2, v⟩ := h
    by_cases hk : k2 = k
    · simpa [removeA, hk] using ih
    · simpa [removeA, hk] using ih

theorem setA_setA {α : Type} (k : String) (v1 v2 : α) (l : List (String × α)) :
    setA k v2 (setA k v1 l) = setA k v2 l := by
  simp [setA, removeA, removeA_removeA]

theorem hm_start_fresh (env : Env) (w : World) (fromNumber body : String)
    (hx : extractInquiryId (jsTrim body) = none)
    (hs : lookupA fromNumber w.sessions = none)
    (hno : lowerStr (jsTrim body) ≠ "no") (hstop : lowerStr (jsTrim body) ≠ "stop") :
    handleMessage env w fromNumber body =
      ⟨⟨setA fromNumber ⟨SState.PRODUCT_NAME, {}⟩ w.sessions, w.inquiries⟩, [],
        Outcome.reply welcomeMsg⟩ := by
  have hcond : lookupA fromNumber w.sessions = none ∨ lowerStr (jsTrim body) = "hello" :=
    Or.inl hs
  have hterm : ¬ (lowerStr (jsTrim body) = "no" ∨ lowerStr (jsTrim body) = "stop") := by
    simp [hno, hstop]
  simp only [handleMessage, hx]
  rw [if_pos hcond]
  simp only [lookupA_setA_self, Option.getD_some]
  rw [if_neg hterm]
  simp [stepState, setA_setA]

theorem hm_at_product (env : Env) (w : World) (fromNumber body : String) (d : Request)
    (hx : extractInquiryId (jsTrim body) = none)
    (hs : lookupA fromNumber w.sessions = some ⟨SState.PRODUCT_NAME, d⟩)
    (hhello : lowerStr (jsTrim body) ≠ "hello")
    (hno : lowerStr (jsTrim body) ≠ "no") (hstop : lowerStr (jsTrim body) ≠ "stop") :
    handleMessage env w fromNumber body =
      ⟨⟨setA fromNumber ⟨SState.CATEGORY,
          if lowerStr (jsTrim body) = "skip" then d
          else { d with product_name := some (jsTrim body) }⟩ w.sessions, w.inquiries⟩, [],
        Outcome.reply categoryPrompt⟩ := by
  have hcond : ¬ (lookupA fromNumber w.sessions = none ∨ lowerStr (jsTrim body) = "hello") := by
    simp [hs, hhello]
  have hterm : ¬ (lowerStr (jsTrim body) = "no" ∨ lowerStr (jsTrim body) = "stop") := by
    simp [hno, hstop]
  simp only [handleMessage, hx]
  rw [if_neg hcond]
  simp only [hs, Option.getD_some]
  rw [if_neg hterm]
  simp [stepState]

theorem hm_at_category (env : Env) (w : World) (fromNumber body : String) (d : Request)
    (hx : extractInquiryId (jsTrim body) = none)
    (hs : lookupA fromNumber w.sessions = some ⟨SState.CATEGORY, d⟩)
    (hhello : lowerStr (jsTrim body) ≠ "hello")
    (hno : lowerStr (jsTrim body) ≠ "no") (hstop : lowerStr (jsTrim body) ≠ "stop") :
    handleMessage env w fromNumber body =
      ⟨⟨setA fromNumber ⟨SState.QUANTITY,
          if lowerStr (jsTrim body) = "skip" then d
          else { d with category := some (jsTrim body) }⟩ w.sessions, w.inquiries⟩, [],
        Outcome.reply quantityPrompt⟩ := by
  have hcond : ¬ (lookupA fromNumber w.sessions = none ∨ lowerStr (jsTrim body) = "hello") := by
    simp [hs, hhello]
  have hterm : ¬ (lowerStr (jsTrim body) = "no" ∨ lowerStr (jsTrim body) = "stop") := by
    simp [hno, hstop]
  simp only [handleMessage, hx]
  rw [if_neg hcond]
  simp only [hs, Option.getD_some]
  rw [if_neg hterm]
  simp [stepState]

theorem hm_at_quantity_skip (env : Env) (w : World) (fromNumber body : String) (d : Request)
    (hx : extractInquiryId (jsTrim body) = none)
    (hs : lookupA fromNumber w.sessions = some ⟨SState.QUANTITY, d⟩)
    (hhello : lowerStr (jsTrim body) ≠ "hello")
    (hno : lowerStr (jsTrim body) ≠ "no") (hstop : lowerStr (jsTrim body) ≠ "stop")
    (hsk : lowerStr (jsTrim body) = "skip") :
    handleMessage env w fromNumber body =
      ⟨⟨setA fromNumber ⟨SState.PINCODE, { d with quantity := none }⟩ w.sessions, w.inquiries⟩, [],
        Outcome.reply pincodePrompt⟩ := by
  have hcond : ¬ (lookupA fromNumber w.sessions = none ∨ lowerStr (jsTrim body) = "hello") := by
    simp [hs, hhello]
  have hterm : ¬ (lowerStr (jsTrim body) = "no" ∨ lowerStr (jsTrim body) = "stop") := by
    simp [hno, hstop]
  simp only [handleMessage, hx]
  rw [if_neg hcond]
  simp only [hs, Option.getD_some]
  rw [if_neg hterm]
  simp [stepState, hsk]

theorem hm_at_quantity_valid (env : Env) (w : World) (fromNumber body : String) (d : Request)
    (q : Rat)
    (hx : extractInquiryId (jsTrim body) = none)
    (hs : lookupA fromNumber w.sessions = some ⟨SState.QUANTITY, d⟩)
    (hhello : lowerStr (jsTrim body) ≠ "hello")
    (hno : lowerStr (jsTrim body) ≠ "no") (hstop : lowerStr (jsTrim body) ≠ "stop")
    (hns : lowerStr (jsTrim body) ≠ "skip")
    (hq : jsParseFloat (jsTrim body) = some q) (hq0 : 0 ≤ q) :
    handleMessage env w fromNumber body =
      ⟨⟨setA fromNumber ⟨SState.PINCODE, { d with quantity := some q }⟩ w.sessions, w.inquiries⟩, [],
        Outcome.reply pincodePrompt⟩ := by
  have hcond : ¬ (lookupA fromNumber w.sessions = none ∨ lowerStr (jsTrim body) = "hello") := by
    simp [hs, hhello]
  have hterm : ¬ (lowerStr (jsTrim body) = "no" ∨ lowerStr (jsTrim body) = "stop") := by
    simp [hno, hstop]
  simp only [handleMessage, hx]
  rw [if_neg hcond]
  simp only [hs, Option.getD_some]
  rw [if_neg hterm]
  simp [stepState, hns, hq, hq0]

theorem hm_at_pincode_six (env : Env) (w : World) (fromNumber body : String) (d : Request)
    (hx : extractInquiryId (jsTrim body) = none)
    (hs : lookupA fromNumber w.sessions = some ⟨SState.PINCODE, d⟩)
    (hhello : lowerStr (jsTrim body) ≠ "hello")
    (hno : lowerStr (jsTrim body) ≠ "no") (hstop : lowerStr (jsTrim body) ≠ "stop")
    (hns : lowerStr (jsTrim body) ≠ "skip")
    (h6 : isSixDigits (jsTrim body) = true) :
    handleMessage env w fromNumber body =
      ⟨⟨setA fromNumber ⟨SState.PROXIMITY, { d with pincode := some (jsTrim body) }⟩ w.sessions,
          w.inquiries⟩, [],
        Outcome.reply proximityPrompt⟩ := by
  have hcond : ¬ (lookupA fromNumber w.sessions = none ∨ lowerStr (jsTrim body) = "hello") := by
    simp [hs, hhello]
  have hterm : ¬ (lowerStr (jsTrim body) = "no" ∨ lowerStr (jsTrim body) = "stop") := by
    simp [hno, hstop]
  simp only [handleMessage, hx]
  rw [if_neg hcond]
  simp only [hs, Option.getD_some]
  rw [if_neg hterm]
  simp [stepState, hns, h6]

theorem hm_at_pincode_invalid (env : Env) (w : World) (fromNumber body : String) (d : Request)
    (hx : extractInquiryId (jsTrim body) = none)
    (hs : lookupA fromNumber w.sessions = some ⟨SState.PINCODE, d⟩)
    (hhello : lowerStr (jsTrim body) ≠ "hello")
    (hno : lowerStr (jsTrim body) ≠ "no") (hstop : lowerStr (jsTrim body) ≠ "stop")
    (hns : lowerStr (jsTrim body) ≠ "skip")
    (h6 : isSixDigits (jsTrim body) = false) :
    handleMessage env w fromNumber body =
      ⟨⟨setA fromNumber ⟨SState.PINCODE, d⟩ w.sessions, w.inquiries⟩, [],
        Outcome.reply invalidPincodeMsg⟩ := by
  have hcond : ¬ (lookupA fromNumber w.sessions = none ∨ lowerStr (jsTrim body) = "hello") := by
    simp [hs, hhello]
  have hterm : ¬ (lowerStr (jsTrim body) = "no" ∨ lowerStr (jsTrim body) = "stop") := by
    simp [hno, hstop]
  simp only [handleMessage, hx]
  rw [if_neg hcond]
  simp only [hs, Option.getD_some]
  rw [if_neg hterm]
  simp [stepState, hns, h6]

theorem hm_at_end_other (env : Env) (w : World) (fromNumber body : String) (d : Request)
    (hx : extractInquiryId (jsTrim body) = none)
    (hs : lookupA fromNumber w.sessions = some ⟨SState.END, d⟩)
    (hhello : lowerStr (jsTrim body) ≠ "hello")
    (hno : lowerStr (jsTrim body) ≠ "no") (hstop : lowerStr (jsTrim body) ≠ "stop")
    (hyes : lowerStr (jsTrim body) ≠ "yes") (hy : lowerStr (jsTrim body) ≠ "y") :
    handleMessage env w fromNumber body =
      ⟨⟨removeA fromNumber w.sessions, w.inquiries⟩, [],
        Outcome.reply (farewellMsg ++ searchAgainSuffix)⟩ := by
  have hcond : ¬ (lookupA fromNumber w.sessions = none ∨ lowerStr (jsTrim body) = "hello") := by
    simp [hs, hhello]
  have hterm : ¬ (lowerStr (jsTrim body) = "no" ∨ lowerStr (jsTrim body) = "stop") := by
    simp [hno, hstop]
  have hye : ¬ (lowerStr (jsTrim body) = "yes" ∨ lowerStr (jsTrim body) = "y") := by
    simp [hyes, hy]
  simp only [handleMessage, hx]
  rw [if_neg hcond]
  simp only [hs, Option.getD_some]
  rw [if_neg hterm]
  simp [stepState, hye, hno, hstop]


theorem performSearch_isSome (env : Env) (data : Request) (hem : env.embedOk = true) :
    ∃ ms, performSearch env data = some ms := by
  unfold performSearch
  rw [hem, if_pos rfl]
  by_cases hio : env.indexOk
  · rw [if_pos hio]
    dsimp only
    rcases data.pincode with _ | p <;> rcases data.proximity with _ | prox <;> dsimp only
    · exact ⟨_, rfl⟩
    · exact ⟨_, rfl⟩
    · exact ⟨_, rfl⟩
    · by_cases hp : p = ""
      · rw [if_pos hp]; exact ⟨_, rfl⟩
      · rw [if_neg hp]; cases prox <;> exact ⟨_, rfl⟩
  · rw [if_neg hio]; exact ⟨_, rfl⟩

theorem performSearchAndFormat_isSome (env : Env) (inqs : List (String × Inquiry))
    (data : Request) (fromNumber : String) (hem : env.embedOk = true) :
    ∃ r, performSearchAndFormat env inqs data fromNumber = some r := by
  obtain ⟨ms, hms⟩ := performSearch_isSome env data hem
  unfold performSearchAndFormat
  rw [hms]
  dsimp only
  by_cases he : ms.isEmpty
  · rw [if_pos he]; exact ⟨_, rfl⟩
  · rw [if_neg he]
    by_cases hn : (ms.filterMap (fun m => truthyContact m.sellerContact)).isEmpty
    · rw [if_pos hn]; exact ⟨_, rfl⟩
    · rw [if_neg hn]; exact ⟨_, rfl⟩

theorem hm_at_proximity_valid (env : Env) (w : World) (fromNumber body : String) (d : Request)
    (hx : extractInquiryId (jsTrim body) = none)
    (hs : lookupA fromNumber w.sessions = some ⟨SState.PROXIMITY, d⟩)
    (hhello : lowerStr (jsTrim body) ≠ "hello")
    (hno : lowerStr (jsTrim body) ≠ "no") (hstop : lowerStr (jsTrim body) ≠ "stop")
    (hv : lowerStr (jsTrim body) = "same" ∨ lowerStr (jsTrim body) = "pan")
    (hem : env.embedOk = true) :
    lookupA fromNumber (handleMessage env w fromNumber body).world.sessions =
      some ⟨SState.END, { d with proximity := some (proxOf (lowerStr (jsTrim body))) }⟩ := by
  have hcond : ¬ (lookupA fromNumber w.sessions = none ∨ lowerStr (jsTrim body) = "hello") := by
    simp [hs, hhello]
  have hterm : ¬ (lowerStr (jsTrim body) = "no" ∨ lowerStr (jsTrim body) = "stop") := by
    simp [hno, hstop]
  obtain ⟨r, hr⟩ := performSearchAndFormat_isSome env w.inquiries
    { d with proximity := some (proxOf (lowerStr (jsTrim body))) } fromNumber hem
  simp only [handleMessage, hx]
  rw [if_neg hcond]
  simp only [hs, Option.getD_some]
  rw [if_neg hterm]
  simp only [stepState]
  rw [if_pos hv]
  simp only [hr]
  simp [lookupA_setA_self]

theorem hm_at_pincode_skip (env : Env) (w : World) (fromNumber body : String) (d : Request)
    (hx : extractInquiryId (jsTrim body) = none)
    (hs : lookupA fromNumber w.sessions = some ⟨SState.PINCODE, d⟩)
    (hhello : lowerStr (jsTrim body) ≠ "hello")
    (hno : lowerStr (jsTrim body) ≠ "no") (hstop : lowerStr (jsTrim body) ≠ "stop")
    (hsk : lowerStr (jsTrim body) = "skip")
    (hem : env.embedOk = true) :
    lookupA fromNumber (handleMessage env w fromNumber body).world.sessions =
      some ⟨SState.END, { d with pincode := none }⟩ ∧
    ∃ m, (handleMessage env w fromNumber body).out = Outcome.reply (m ++ searchAgainSuffix) := by
  have hcond : ¬ (lookupA fromNumber w.sessions = none ∨ lowerStr (jsTrim body) = "hello") := by
    simp [hs, hhello]
  have hterm : ¬ (lowerStr (jsTrim body) = "no" ∨ lowerStr (jsTrim body) = "stop") := by
    simp [hno, hstop]
  obtain ⟨r, hr⟩ := performSearchAndFormat_isSome env w.inquiries
    { d with pincode := none } fromNumber hem
  simp only [handleMessage, hx]
  rw [if_neg hcond]
  simp only [hs, Option.getD_some]
  rw [if_neg hterm]
  simp only [stepState]
  rw [if_pos hsk]
  simp only [hr]
  constructor
  · simp [lookupA_setA_self]
  · exact ⟨r.2.2, by simp [hno, hstop]⟩

theorem hm_at_proximity_embedFail (env : Env) (w : World) (fromNumber body : String) (d : Request)
    (hx : extractInquiryId (jsTrim body) = none)
    (hs : lookupA fromNumber w.sessions = some ⟨SState.PROXIMITY, d⟩)
    (hhello : lowerStr (jsTrim body) ≠ "hello")
    (hno : lowerStr (jsTrim body) ≠ "no") (hstop : lowerStr (jsTrim body) ≠ "stop")
    (hv : lowerStr (jsTrim body) = "same" ∨ lowerStr (jsTrim body) = "pan")
    (hem : env.embedOk = false) :
    (handleMessage env w fromNumber body).out = Outcome.crash ∧
    lookupA fromNumber (handleMessage env w fromNumber body).world.sessions =
      some ⟨SState.PROXIMITY, { d with proximity := some (proxOf (lowerStr (jsTrim body))) }⟩ := by
  have hcond : ¬ (lookupA fromNumber w.sessions = none ∨ lowerStr (jsTrim body) = "hello") := by
    simp [hs, hhello]
  have hterm : ¬ (lowerStr (jsTrim body) = "no" ∨ lowerStr (jsTrim body) = "stop") := by
    simp [hno, hstop]
  have hps : performSearch env { d with proximity := some (proxOf (lowerStr (jsTrim body))) } = none := by
    unfold performSearch
    rw [hem]
    simp
  have hpsf : performSearchAndFormat env w.inquiries
      { d with proximity := some (proxOf (lowerStr (jsTrim body))) } fromNumber = none := by
    unfold performSearchAndFormat
    rw [hps]
  simp only [handleMessage, hx]
  rw [if_neg hcond]
  simp only [hs, Option.getD_some]
  rw [if_neg hterm]
  simp only [stepState]
  rw [if_pos hv]
  simp only [hpsf]
  exact ⟨by simp, by simp [lookupA_setA_self]⟩

theorem mem_insertLE {α : Type} {le : α → α → Bool} {a x : α} {l : List α}
    (h : x ∈ insertLE le a l) : x = a ∨ x ∈ l := by
  induction l with
  | nil =>
    simp only [insertLE, List.mem_singleton] at h
    exact Or.inl h
  | cons b t ih =>
    by_cases hab : le a b = true
    · simp only [insertLE, if_pos hab, List.mem_cons] at h
      rcases h with h | h | h
      · exact Or.inl h
      · exact Or.inr (by simp [h])
      · exact Or.inr (List.mem_cons_of_mem _ h)
    · simp only [insertLE, if_neg hab, List.mem_cons] at h
      rcases h with h | h
      · exact Or.inr (by simp [h])
      · rcases ih h with h1 | h1
        · exact Or.inl h1
        · exact Or.inr (List.mem_cons_of_mem _ h1)

theorem mem_sortLE {α : Type} {le : α → α → Bool} {x : α} {l : List α}
    (h : x ∈ sortLE le l) : x ∈ l := by
  induction l with
  | nil => simp only [sortLE] at h; exact h
  | cons a t ih =>
    rcases mem_insertLE (by simpa [sortLE] using h) with h1 | h1
    · simp [h1]
    · exact List.mem_cons_of_mem _ (ih h1)

theorem pairwise_insertLE {α : Type} {le : α → α → Bool} {P : α → Prop}
    (total : ∀ x y, P x → P y → le x y = true ∨ le y x = true)
    (htrans : ∀ x y z, P x → P y → P z → le x y = true → le y z = true → le x z = true)
    {a : α} {l : List α} (ha : P a) (hl : ∀ x ∈ l, P x)
    (hs : l.Pairwise (fun x y => le x y = true)) :
    (insertLE le a l).Pairwise (fun x y => le x y = true) := by
  induction l with
  | nil => simp [insertLE]
  | cons b t ih =>
    have hb : P b := hl b (List.mem_cons_self _ _)
    have ht : ∀ x ∈ t, P x := fun x hx => hl x (List.mem_cons_of_mem _ hx)
    rcases List.pairwise_cons.mp hs with ⟨hbt, hst⟩
    by_cases hab : le a b = true
    · simp only [insertLE, if_pos hab]
      refine List.pairwise_cons.mpr ⟨?_, hs⟩
      intro y hy
      rcases List.mem_cons.mp hy with rfl | hy
      · exact hab
      · exact htrans a b y ha hb (ht y hy) hab (hbt y hy)
    · have hba : le b a = true := (total a b ha hb).resolve_left hab
      simp only [insertLE, if_neg hab]
      refine List.pairwise_cons.mpr ⟨?_, ih ht hst⟩
      intro y hy
      rcases mem_insertLE hy with rfl | hy
      · exact hba
      · exact hbt y hy

theorem pairwise_sortLE {α : Type} {le : α → α → Bool} {P : α → Prop}
    (total : ∀ x y, P x → P y → le x y = true ∨ le y x = true)
    (htrans : ∀ x y z, P x → P y → P z → le x y = true → le y z = true → le x z = true)
    {l : List α} (hl : ∀ x ∈ l, P x) :
    (sortLE le l).Pairwise (fun x y => le x y = true) := by
  induction l with
  | nil => simp [sortLE]
  | cons a t ih =>
    have ht : ∀ x ∈ t, P x := fun x hx => hl x (List.mem_cons_of_mem _ hx)
    exact pairwise_insertLE total htrans (hl a (List.mem_cons_self _ _))
      (fun x hx => ht x (mem_sortLE hx)) (ih ht)

theorem mem_filterByName {pn : Option String} {ms : List MatchRec} {x : MatchRec}
    (h : x ∈ filterByName pn ms) : x ∈ ms := by
  unfold filterByName at h
  rcases pn with _ | p
  · exact h
  · dsimp only at h
    by_cases hp : p = ""
    · simpa [hp] using h
    · rw [if_neg hp] at h
      exact (List.mem_filter.mp h).1

/-- Fixture: an environment where every external call succeeds and the index
    returns no matches. -/
def envOkEmpty : Env := ⟨true, true, [], "1700"⟩

/-- Fixture: one index match without a seller contact number. -/
def envNoContact : Env := ⟨true, true, [⟨"Prod", "390001", none, "S"⟩], "99"⟩

/-- Fixture: a stored inquiry with one contacted supplier. -/
def inqFix : Inquiry := ⟨"whatsapp:+918888", some "Sodium", [⟨some "+919999", "Acme"⟩]⟩

/-- Fixture: a world holding only the fixture inquiry under id 99. -/
def wInqFix : World := ⟨[], [("99", inqFix)]⟩

/-- Fixture: a world with one session of buyer u in the given state. -/
def wAt (st : SState) : World := ⟨[("u", ⟨st, {}⟩)], []⟩

/-- C10: handling any inbound message that matches the correlation pattern
    leaves both stores untouched: no Session is created, mutated or deleted,
    whatever the prior store state and whichever of the three outcomes the
    correlation branch takes. -/
theorem c10_correlation_frame (env : Env) (w : World) (fromNumber body inqId : String)
    (h : extractInquiryId (jsTrim body) = some inqId) :
    (handleMessage env w fromNumber body).world = w := by
  simp only [handleMessage, h]
  cases hl : lookupA inqId w.inquiries with
  | none => rfl
  | some inq =>
    dsimp only
    cases hf : inq.suppliers.find? (fun s => s.number == some (stripWhatsapp fromNumber)) with
    | none => rfl
    | some sup => rfl

/-- C10 witness: a buyer in mid-conversation state QUANTITY keeps the exact
    session store after a correlation-pattern message. -/
theorem c10_correlation_frame_witness :
    extractInquiryId (jsTrim "offer #12") = some "12" ∧
    (handleMessage envOkEmpty (wAt SState.QUANTITY) "whatsapp:+1" "offer #12").world =
      wAt SState.QUANTITY :=
  ⟨by decide, c10_correlation_frame envOkEmpty (wAt SState.QUANTITY) "whatsapp:+1" "offer #12" "12"
    (by decide)⟩

/-- C5: after an inquiry is stored under id I with contacted-supplier list S,
    a message whose correlation id resolves to I gets the delivered reply and
    a forward to the originating buyer when the sender address is in S, the
    supplier-not-party reply when it is not, and the not-found reply for an id
    with no stored inquiry; each case produces a reply, never a crash. -/
theorem c5_reply_routing (env : Env) (w : World) (fromNumber body inqId : String)
    (h : extractInquiryId (jsTrim body) = some inqId) :
    (∀ inq, lookupA inqId w.inquiries = some inq →
      ((∃ sup ∈ inq.suppliers, sup.number = some (stripWhatsapp fromNumber)) →
        (handleMessage env w fromNumber body).out = Outcome.reply forwardedMsg ∧
        ∃ m, (handleMessage env w fromNumber body).sends = [(inq.user, m)]) ∧
      ((∀ sup ∈ inq.suppliers, sup.number ≠ some (stripWhatsapp fromNumber)) →
        (handleMessage env w fromNumber body).out = Outcome.reply supplierNotPartyMsg ∧
        (handleMessage env w fromNumber body).sends = [])) ∧
    (lookupA inqId w.inquiries = none →
      (handleMessage env w fromNumber body).out = Outcome.reply inquiryNotFoundMsg ∧
      (handleMessage env w fromNumber body).sends = []) := by
  constructor
  · intro inq hinq
    constructor
    · rintro ⟨sup, hsup, hnum⟩
      have hsome : (inq.suppliers.find?
          (fun s => s.number == some (stripWhatsapp fromNumber))).isSome = true := by
        rw [List.find?_isSome]
        exact ⟨sup, hsup, by simp [hnum]⟩
      obtain ⟨sup2, hf⟩ := Option.isSome_iff_exists.mp hsome
      constructor
      · simp [handleMessage, h, hinq, hf]
      · simp [handleMessage, h, hinq, hf]
    · intro hall
      have hf : inq.suppliers.find?
          (fun s => s.number == some (stripWhatsapp fromNumber)) = none := by
        rw [List.find?_eq_none]
        intro x hx
        simp [hall x hx]
      constructor
      · simp [handleMessage, h, hinq, hf]
      · simp [handleMessage, h, hinq, hf]
  · intro hnone
    constructor
    · simp [handleMessage, h, hnone]
    · simp [handleMessage, h, hnone]

/-- C5 witness: the delivered case on the fixture inquiry, the not-a-party
    case for an uncontacted address, and the not-found case for id 77. -/
theorem c5_reply_routing_witness :
    extractInquiryId (jsTrim "my quote #99 is 5rs") = some "99" ∧
    (handleMessage envOkEmpty wInqFix "whatsapp:+919999" "my quote #99 is 5rs").out =
      Outcome.reply forwardedMsg ∧
    (handleMessage envOkEmpty wInqFix "whatsapp:+910000" "my quote #99 is 5rs").out =
      Outcome.reply supplierNotPartyMsg ∧
    (handleMessage envOkEmpty wInqFix "whatsapp:+919999" "my quote #77 is 5rs").out =
      Outcome.reply inquiryNotFoundMsg := by
  refine ⟨by decide, ?_, ?_, ?_⟩
  · exact (((c5_reply_routing envOkEmpty wInqFix "whatsapp:+919999" "my quote #99 is 5rs" "99"
      (by decide)).1 inqFix (by decide)).1
      ⟨⟨some "+919999", "Acme"⟩, by decide, by decide⟩).1
  · exact (((c5_reply_routing envOkEmpty wInqFix "whatsapp:+910000" "my quote #99 is 5rs" "99"
      (by decide)).1 inqFix (by decide)).2 (by decide)).1
  · exact ((c5_reply_routing envOkEmpty wInqFix "whatsapp:+919999" "my quote #77 is 5rs" "77"
      (by decide)).2 (by decide)).1

/-- C4: a message equal case-insensitively to no or stop removes the sender
    session in every state and returns the fixed termination message; and a
    later message from a sender with no session, other than hello (and not a
    termination keyword or a correlation reply, which other clauses govern),
    creates a fresh session that has already advanced to the welcome prompt. -/
theorem c4_stop_and_fresh (env : Env) (w : World) (fromNumber body : String) :
    ((lowerStr (jsTrim body) = "no" ∨ lowerStr (jsTrim body) = "stop") →
      lookupA fromNumber (handleMessage env w fromNumber body).world.sessions = none ∧
      (handleMessage env w fromNumber body).out = Outcome.reply terminatedMsg) ∧
    (lookupA fromNumber w.sessions = none → extractInquiryId (jsTrim body) = none →
      lowerStr (jsTrim body) ≠ "hello" → lowerStr (jsTrim body) ≠ "no" →
      lowerStr (jsTrim body) ≠ "stop" →
      lookupA fromNumber (handleMessage env w fromNumber body).world.sessions =
        some ⟨SState.PRODUCT_NAME, {}⟩ ∧
      (handleMessage env w fromNumber body).out = Outcome.reply welcomeMsg) := by
  constructor
  · intro hns
    have hx : extractInquiryId (jsTrim body) = none := by
      rcases hns with h | h
      · exact extractInquiryId_eq_none_of_lower h (by decide)
      · exact extractInquiryId_eq_none_of_lower h (by decide)
    simp only [handleMessage, hx]
    by_cases hc : lookupA fromNumber w.sessions = none ∨ lowerStr (jsTrim body) = "hello"
    · rw [if_pos hc, if_pos hns]
      exact ⟨lookupA_removeA_self _ _, rfl⟩
    · rw [if_neg hc, if_pos hns]
      exact ⟨lookupA_removeA_self _ _, rfl⟩
  · intro hfresh hx hhello hno hstop
    rw [hm_start_fresh env w fromNumber body hx hfresh hno hstop]
    exact ⟨lookupA_setA_self _ _ _, rfl⟩

/-- C4 witness: STOP mid-conversation removes the session; a later hi there
    with no session yields the welcome prompt and a session at PRODUCT_NAME. -/
theorem c4_stop_and_fresh_witness :
    (lowerStr (jsTrim "STOP") = "stop" ∧
      lookupA "u" (handleMessage envOkEmpty (wAt SState.PINCODE) "u" "STOP").world.sessions =
        none) ∧
    (lookupA "u" ((⟨[], []⟩ : World)).sessions = none ∧
      lookupA "u" (handleMessage envOkEmpty ⟨[], []⟩ "u" "hi there").world.sessions =
        some ⟨SState.PRODUCT_NAME, {}⟩ ∧
      (handleMessage envOkEmpty ⟨[], []⟩ "u" "hi there").out = Outcome.reply welcomeMsg) := by
  refine ⟨⟨by decide, ?_⟩, by decide, ?_, ?_⟩
  · exact ((c4_stop_and_fresh envOkEmpty (wAt SState.PINCODE) "u" "STOP").1
      (Or.inr (by decide))).1
  · exact ((c4_stop_and_fresh envOkEmpty ⟨[], []⟩ "u" "hi there").2 (by decide) (by decide)
      (by decide) (by decide) (by decide)).1
  · exact ((c4_stop_and_fresh envOkEmpty ⟨[], []⟩ "u" "hi there").2 (by decide) (by decide)
      (by decide) (by decide) (by decide)).2

/-- C2: performSearch never returns more than 5 candidates, and under the
    same-state proximity with a truthy requester PIN code every returned
    candidate PIN code starts with the first two characters of the requester
    code. -/
theorem c2_bounded_and_same_state (env : Env) (data : Request) (res : List MatchRec)
    (hres : performSearch env data = some res) :
    res.length ≤ 5 ∧
    (∀ p, data.proximity = some Proximity.same → data.pincode = some p → p ≠ "" →
      ∀ m ∈ res, strStartsWith m.pinCode (strTake p 2) = true) := by
  unfold performSearch at hres
  by_cases hem : env.embedOk
  · rw [hem, if_pos rfl] at hres
    by_cases hio : env.indexOk
    · rw [if_pos hio] at hres
      dsimp only at hres
      rcases hp : data.pincode with _ | p0 <;> rcases hx : data.proximity with _ | prox <;>
          rw [hp, hx] at hres <;> dsimp only at hres
      · obtain rfl : res = _ := (Option.some.injEq _ _ ▸ hres).symm
        refine ⟨List.length_take_le _ _, ?_⟩
        intro p _ hpin
        exact absurd hpin (by simp)
      · obtain rfl : res = _ := (Option.some.injEq _ _ ▸ hres).symm
        refine ⟨List.length_take_le _ _, ?_⟩
        intro p _ hpin
        exact absurd hpin (by simp)
      · obtain rfl : res = _ := (Option.some.injEq _ _ ▸ hres).symm
        refine ⟨List.length_take_le _ _, ?_⟩
        intro p hsame
        exact absurd hsame (by simp)
      · by_cases hp0 : p0 = ""
        · rw [if_pos hp0] at hres
          obtain rfl : res = _ := (Option.some.injEq _ _ ▸ hres).symm
          refine ⟨List.length_take_le _ _, ?_⟩
          intro p _ hpin hpe
          obtain rfl : p0 = p := Option.some.injEq _ _ ▸ hpin
          exact absurd hp0 hpe
        · rw [if_neg hp0] at hres
          cases prox with
          | same =>
            dsimp only at hres
            obtain rfl : res = _ := (Option.some.injEq _ _ ▸ hres).symm
            refine ⟨List.length_take_le _ _, ?_⟩
            intro p _ hpin _ m hm
            obtain rfl : p0 = p := Option.some.injEq _ _ ▸ hpin
            exact (List.mem_filter.mp (List.mem_of_mem_take hm)).2
          | pan =>
            dsimp only at hres
            obtain rfl : res = _ := (Option.some.injEq _ _ ▸ hres).symm
            refine ⟨List.length_take_le _ _, ?_⟩
            intro p hsame
            exact absurd hsame (by simp)
    · rw [if_neg hio] at hres
      obtain rfl : res = [] := (Option.some.injEq _ _ ▸ hres).symm
      exact ⟨by simp, by intro p _ _ _ m hm; exact absurd hm (by simp)⟩
  · rw [Bool.not_eq_true] at hem
    rw [hem] at hres
    exact absurd hres (by simp)

/-- Fixture: three matched suppliers, two in state 39 and one in state 56. -/
def envSameFix : Env := ⟨true, true, [⟨"Sodium", "390001", some "+91", "A"⟩,
  ⟨"Sodium", "560001", some "+92", "B"⟩, ⟨"Sodium", "390099", none, "C"⟩], "7"⟩

/-- Fixture: the same-state request of the C2 scenario. -/
def reqSameFix : Request :=
  { product_name := some "Sodium", pincode := some "390013", proximity := some Proximity.same }

/-- Fixture: the candidates the same-state search returns on envSameFix. -/
def resSameFix : List MatchRec :=
  [⟨"Sodium", "390001", some "+91", "A"⟩, ⟨"Sodium", "390099", none, "C"⟩]

/-- C2 witness: on the same-state fixture at most 5 results come back and
    every returned PIN shares the 39 prefix of the requester code. -/
theorem c2_bounded_and_same_state_witness :
    performSearch envSameFix reqSameFix = some resSameFix ∧
    resSameFix.length ≤ 5 ∧
    (∀ m ∈ resSameFix, strStartsWith m.pinCode (strTake "390013" 2) = true) := by
  refine ⟨by decide, ?_, ?_⟩
  · exact (c2_bounded_and_same_state envSameFix reqSameFix resSameFix (by decide)).1
  · exact (c2_bounded_and_same_state envSameFix reqSameFix resSameFix (by decide)).2
      "390013" rfl rfl (by decide)

/-- C3 (amended): under pan proximity with a requester PIN that parses as a
    number, when every index match has a PIN code that parses as a number the
    returned candidates are sorted by non-decreasing absolute numeric PIN
    distance from the requester code. A match with an unparsable PIN code is
    not excluded: the comparator treats it as a tie against everything, the
    sort order becomes implementation-defined, and the distance ordering of
    the parsable candidates can break (see the counterexample). -/
theorem c3_pan_sorted_when_parsable (env : Env) (data : Request) (res : List MatchRec)
    (p : String) (u : Int)
    (hprox : data.proximity = some Proximity.pan)
    (hpin : data.pincode = some p)
    (hu : jsParseInt p = some u)
    (hall : ∀ m ∈ env.indexMatches, (jsParseInt m.pinCode).isSome = true)
    (hres : performSearch env data = some res) :
    res.Pairwise (fun a b => panDist u a ≤ panDist u b) := by
  unfold performSearch at hres
  by_cases hem : env.embedOk
  · rw [hem, if_pos rfl] at hres
    by_cases hio : env.indexOk
    · rw [if_pos hio, hpin, hprox] at hres
      dsimp only at hres
      by_cases hp0 : p = ""
      · have he : jsParseInt "" = none := by decide
        rw [hp0, he] at hu
        simp at hu
      · rw [if_neg hp0] at hres
        obtain rfl : res = _ := (Option.some.injEq _ _ ▸ hres).symm
        have hmsP : ∀ x ∈ filterByName data.product_name env.indexMatches,
            (jsParseInt x.pinCode).isSome = true :=
          fun x hx => hall x (mem_filterByName hx)
        have htotal : ∀ x y : MatchRec, (jsParseInt x.pinCode).isSome = true →
            (jsParseInt y.pinCode).isSome = true →
            panLE (jsParseInt p) x y = true ∨ panLE (jsParseInt p) y x = true := by
          intro x y hx hy
          obtain ⟨xa, hxa⟩ := Option.isSome_iff_exists.mp hx
          obtain ⟨xb, hxb⟩ := Option.isSome_iff_exists.mp hy
          simp only [panLE, hu, hxa, hxb, decide_eq_true_eq]
          exact le_total _ _
        have htrans : ∀ x y z : MatchRec, (jsParseInt x.pinCode).isSome = true →
            (jsParseInt y.pinCode).isSome = true → (jsParseInt z.pinCode).isSome = true →
            panLE (jsParseInt p) x y = true → panLE (jsParseInt p) y z = true →
            panLE (jsParseInt p) x z = true := by
          intro x y z hx hy hz
          obtain ⟨xa, hxa⟩ := Option.isSome_iff_exists.mp hx
          obtain ⟨xb, hxb⟩ := Option.isSome_iff_exists.mp hy
          obtain ⟨xc, hxc⟩ := Option.isSome_iff_exists.mp hz
          simp only [panLE, hu, hxa, hxb, hxc, decide_eq_true_eq]
          exact le_trans
        have hsorted := @pairwise_sortLE MatchRec (panLE (jsParseInt p))
          (fun m => (jsParseInt m.pinCode).isSome = true) htotal htrans _ hmsP
        have htake : (List.take 5 (sortLE (panLE (jsParseInt p))
            (filterByName data.product_name env.indexMatches))).Pairwise
            (fun x y => panLE (jsParseInt p) x y = true) :=
          List.Pairwise.sublist (List.take_sublist _ _) hsorted
        refine htake.imp_of_mem ?_
        intro a b ha hb hab
        have hPa := hmsP a (mem_sortLE (List.mem_of_mem_take ha))
        have hPb := hmsP b (mem_sortLE (List.mem_of_mem_take hb))
        obtain ⟨xa, hxa⟩ := Option.isSome_iff_exists.mp hPa
        obtain ⟨xb, hxb⟩ := Option.isSome_iff_exists.mp hPb
        simp only [panLE, hu, hxa, hxb, decide_eq_true_eq] at hab
        simp only [panDist, hxa, hxb, Option.getD_some]
        exact hab
    · rw [if_neg hio] at hres
      obtain rfl : res = [] := (Option.some.injEq _ _ ▸ hres).symm
      simp
  · rw [Bool.not_eq_true] at hem
    rw [hem] at hres
    exact absurd hres (by simp)

/-- Fixture: four pan-India matches, one with an unparsable PIN code. -/
def envPanFix : Env := ⟨true, true, [⟨"p", "000001", none, "A"⟩, ⟨"p", "000009", none, "B"⟩,
  ⟨"p", "xyz", none, "M"⟩, ⟨"p", "000005", none, "C"⟩], "7"⟩

/-- Fixture: the pan request at requester PIN 000000. -/
def reqPanFix : Request := { pincode := some "000000", proximity := some Proximity.pan }

/-- Fixture: three pan-India matches whose PIN codes all parse. -/
def envPanGoodFix : Env := ⟨true, true, [⟨"p", "000009", none, "B"⟩,
  ⟨"p", "000001", none, "A"⟩, ⟨"p", "000005", none, "C"⟩], "7"⟩

/-- C3 counterexample: with one unparsable candidate PIN code in the pan
    branch, the unparsable match stays in the returned list and the parsable
    candidates around it come back with distances 1, 9, 5: the list is not
    sorted by numeric PIN distance, refuting the claimed ordering (the
    unparsable candidate is neither excluded nor given a position outside the
    ordering). -/
theorem c3_pan_counterexample :
    performSearch envPanFix reqPanFix = some [⟨"p", "000001", none, "A"⟩,
      ⟨"p", "000009", none, "B"⟩, ⟨"p", "xyz", none, "M"⟩, ⟨"p", "000005", none, "C"⟩] ∧
    jsParseInt "xyz" = none ∧
    (⟨"p", "xyz", none, "M"⟩ : MatchRec) ∈ ([⟨"p", "000001", none, "A"⟩,
      ⟨"p", "000009", none, "B"⟩, ⟨"p", "xyz", none, "M"⟩, ⟨"p", "000005", none, "C"⟩] :
      List MatchRec) ∧
    ¬ (([⟨"p", "000001", none, "A"⟩, ⟨"p", "000009", none, "B"⟩, ⟨"p", "xyz", none, "M"⟩,
        ⟨"p", "000005", none, "C"⟩] : List MatchRec).filter
          (fun m => (jsParseInt m.pinCode).isSome)).Pairwise
        (fun a b => panDist 0 a ≤ panDist 0 b) := by
  refine ⟨by decide, by decide, by decide, by decide⟩

/-- C3 witness: when every candidate PIN parses, the pan result is sorted by
    distance from the requester PIN. -/
theorem c3_pan_sorted_when_parsable_witness :
    jsParseInt "000000" = some 0 ∧
    (∀ m ∈ envPanGoodFix.indexMatches, (jsParseInt m.pinCode).isSome = true) ∧
    performSearch envPanGoodFix reqPanFix = some [⟨"p", "000001", none, "A"⟩,
      ⟨"p", "000005", none, "C"⟩, ⟨"p", "000009", none, "B"⟩] ∧
    ([⟨"p", "000001", none, "A"⟩, ⟨"p", "000005", none, "C"⟩,
      ⟨"p", "000009", none, "B"⟩] : List MatchRec).Pairwise
      (fun a b => panDist 0 a ≤ panDist 0 b) := by
  refine ⟨by decide, by decide, by decide, ?_⟩
  exact c3_pan_sorted_when_parsable envPanGoodFix reqPanFix _ "000000" 0 rfl rfl (by decide)
    (by decide) (by decide)

/-- C6 (amended): in state PINCODE, skip sets the pincode to null and then
    runs the search immediately, transitioning to END with the search reply
    (plus the search-again suffix) — it does not ask the proximity question;
    a valid six-digit input stores the code, asks the same-or-pan question and
    transitions to PROXIMITY; any other non-skip input re-prompts without
    changing the state or the stored data. -/
theorem c6_pincode_behaviour (env : Env) (w : World) (fromNumber body : String) (d : Request)
    (hx : extractInquiryId (jsTrim body) = none)
    (hs : lookupA fromNumber w.sessions = some ⟨SState.PINCODE, d⟩)
    (hhello : lowerStr (jsTrim body) ≠ "hello")
    (hno : lowerStr (jsTrim body) ≠ "no") (hstop : lowerStr (jsTrim body) ≠ "stop") :
    (lowerStr (jsTrim body) = "skip" → env.embedOk = true →
      lookupA fromNumber (handleMessage env w fromNumber body).world.sessions =
        some ⟨SState.END, { d with pincode := none }⟩ ∧
      ∃ m, (handleMessage env w fromNumber body).out = Outcome.reply (m ++ searchAgainSuffix)) ∧
    (lowerStr (jsTrim body) ≠ "skip" → isSixDigits (jsTrim body) = true →
      lookupA fromNumber (handleMessage env w fromNumber body).world.sessions =
        some ⟨SState.PROXIMITY, { d with pincode := some (jsTrim body) }⟩ ∧
      (handleMessage env w fromNumber body).out = Outcome.reply proximityPrompt) ∧
    (lowerStr (jsTrim body) ≠ "skip" → isSixDigits (jsTrim body) = false →
      lookupA fromNumber (handleMessage env w fromNumber body).world.sessions =
        some ⟨SState.PINCODE, d⟩ ∧
      (handleMessage env w fromNumber body).out = Outcome.reply invalidPincodeMsg) := by
  refine ⟨?_, ?_, ?_⟩
  · intro hsk hem
    exact hm_at_pincode_skip env w fromNumber body d hx hs hhello hno hstop hsk hem
  · intro hns h6
    rw [hm_at_pincode_six env w fromNumber body d hx hs hhello hno hstop hns h6]
    exact ⟨lookupA_setA_self _ _ _, rfl⟩
  · intro hns h6
    rw [hm_at_pincode_invalid env w fromNumber body d hx hs hhello hno hstop hns h6]
    exact ⟨lookupA_setA_self _ _ _, rfl⟩

/-- C6 counterexample: skip in state PINCODE moves the session to END with
    the search result, not to PROXIMITY with the proximity question as the
    claim states. -/
theorem c6_pincode_counterexample :
    (lookupA "u" (handleMessage envOkEmpty (wAt SState.PINCODE) "u" "skip").world.sessions).map
        Session.state = some SState.END ∧
    (lookupA "u" (handleMessage envOkEmpty (wAt SState.PINCODE) "u" "skip").world.sessions).map
        Session.state ≠ some SState.PROXIMITY ∧
    (handleMessage envOkEmpty (wAt SState.PINCODE) "u" "skip").out ≠
      Outcome.reply proximityPrompt ∧
    (handleMessage envOkEmpty (wAt SState.PINCODE) "u" "skip").out =
      Outcome.reply (noSuppliersMsg ++ searchAgainSuffix) := by
  refine ⟨by decide, by decide, by decide, by decide⟩

/-- C6 witness: the three amended branches at concrete inputs. -/
theorem c6_pincode_behaviour_witness :
    (lookupA "u" (handleMessage envOkEmpty (wAt SState.PINCODE) "u" "skip").world.sessions =
      some ⟨SState.END, { pincode := none }⟩) ∧
    (lookupA "u" (handleMessage envOkEmpty (wAt SState.PINCODE) "u" "390013").world.sessions =
      some ⟨SState.PROXIMITY, { pincode := some "390013" }⟩ ∧
      (handleMessage envOkEmpty (wAt SState.PINCODE) "u" "390013").out =
        Outcome.reply proximityPrompt) ∧
    (lookupA "u" (handleMessage envOkEmpty (wAt SState.PINCODE) "u" "39001").world.sessions =
      some ⟨SState.PINCODE, {}⟩ ∧
      (handleMessage envOkEmpty (wAt SState.PINCODE) "u" "39001").out =
        Outcome.reply invalidPincodeMsg) := by
  refine ⟨?_, ?_, ?_⟩
  · exact ((c6_pincode_behaviour envOkEmpty (wAt SState.PINCODE) "u" "skip" {} (by decide)
      (by decide) (by decide) (by decide) (by decide)).1 (by decide) (by decide)).1
  · exact (c6_pincode_behaviour envOkEmpty (wAt SState.PINCODE) "u" "390013" {} (by decide)
      (by decide) (by decide) (by decide) (by decide)).2.1 (by decide) (by decide)
  · exact (c6_pincode_behaviour envOkEmpty (wAt SState.PINCODE) "u" "39001" {} (by decide)
      (by decide) (by decide) (by decide) (by decide)).2.2 (by decide) (by decide)

/-- C9 (amended): in state END any input other than yes or y (and other than
    the termination keywords) destroys the session and returns the farewell
    text, but with the search-again suffix appended: the suffix is added
    whenever the in-memory session object ends the turn in state END and the
    input is not a termination keyword, which includes the farewell path. -/
theorem c9_end_behaviour (env : Env) (w : World) (fromNumber body : String) (d : Request)
    (hx : extractInquiryId (jsTrim body) = none)
    (hs : lookupA fromNumber w.sessions = some ⟨SState.END, d⟩)
    (hhello : lowerStr (jsTrim body) ≠ "hello")
    (hno : lowerStr (jsTrim body) ≠ "no") (hstop : lowerStr (jsTrim body) ≠ "stop")
    (hyes : lowerStr (jsTrim body) ≠ "yes") (hy : lowerStr (jsTrim body) ≠ "y") :
    lookupA fromNumber (handleMessage env w fromNumber body).world.sessions = none ∧
    (handleMessage env w fromNumber body).out =
      Outcome.reply (farewellMsg ++ searchAgainSuffix) := by
  rw [hm_at_end_other env w fromNumber body d hx hs hhello hno hstop hyes hy]
  exact ⟨lookupA_removeA_self _ _, rfl⟩

/-- C9 counterexample: the farewell reply carries the search-again suffix,
    refuting the claim that the suffix is appended only to a completed-search
    result and not to the farewell text. -/
theorem c9_end_counterexample :
    (handleMessage envOkEmpty (wAt SState.END) "u" "bye").out =
      Outcome.reply (farewellMsg ++ searchAgainSuffix) ∧
    farewellMsg ++ searchAgainSuffix ≠ farewellMsg ∧
    (handleMessage envOkEmpty (wAt SState.END) "u" "bye").out ≠
      Outcome.reply farewellMsg := by
  refine ⟨by decide, by decide, by decide⟩

/-- C9 witness: bye in state END removes the session and replies with the
    farewell text plus the search-again suffix. -/
theorem c9_end_behaviour_witness :
    lookupA "u" (handleMessage envOkEmpty (wAt SState.END) "u" "bye").world.sessions = none ∧
    (handleMessage envOkEmpty (wAt SState.END) "u" "bye").out =
      Outcome.reply (farewellMsg ++ searchAgainSuffix) := by
  exact c9_end_behaviour envOkEmpty (wAt SState.END) "u" "bye" {} (by decide) (by decide)
    (by decide) (by decide) (by decide) (by decide) (by decide)

/-- C7 (amended): performSearchAndFormat records an inquiry exactly when the
    search returns at least one match, whether or not any matched supplier has
    a contact number: with no match the store is unchanged and the buyer gets
    the no-suppliers message; with matches but zero truthy contact numbers the
    buyer is told no contactable suppliers were found rather than the success
    message, yet the inquiry record has already been stored; with at least one
    truthy contact number the success message reports their count. -/
theorem c7_inquiry_creation (env : Env) (inqs : List (String × Inquiry)) (data : Request)
    (fromNumber : String) (ms : List MatchRec)
    (hps : performSearch env data = some ms) :
    (ms = [] → performSearchAndFormat env inqs data fromNumber = some (inqs, [], noSuppliersMsg)) ∧
    (ms ≠ [] → ∃ sends msg,
      performSearchAndFormat env inqs data fromNumber =
        some (setA env.freshId ⟨fromNumber, data.product_name,
          ms.map (fun m => ⟨m.sellerContact, m.sellerName⟩)⟩ inqs, sends, msg) ∧
      (ms.filterMap (fun m => truthyContact m.sellerContact) = [] →
        msg = noContactsMsg ∧ sends = []) ∧
      (ms.filterMap (fun m => truthyContact m.sellerContact) ≠ [] →
        msg = successMsg env.freshId
          (ms.filterMap (fun m => truthyContact m.sellerContact)).length)) := by
  constructor
  · rintro rfl
    unfold performSearchAndFormat
    rw [hps]
    rfl
  · intro hne
    unfold performSearchAndFormat
    rw [hps]
    dsimp only
    rw [if_neg (by simpa [List.isEmpty_iff] using hne)]
    by_cases hn : ms.filterMap (fun m => truthyContact m.sellerContact) = []
    · rw [if_pos (by simpa [List.isEmpty_iff] using hn)]
      exact ⟨[], noContactsMsg, rfl, fun _ => ⟨rfl, rfl⟩, fun hc => absurd hn hc⟩
    · rw [if_neg (by simpa [List.isEmpty_iff] using hn)]
      refine ⟨_, _, rfl, fun hc => absurd hc hn, fun _ => rfl⟩

/-- C7 counterexample: one matched supplier with no contact number: the buyer
    is told no contactable suppliers were found, yet the inquiry store has
    gained the record under the fresh id, refuting the claim that the store is
    left unchanged in that case. -/
theorem c7_inquiry_counterexample :
    performSearchAndFormat envNoContact [] {} "buyer" =
      some ([("99", ⟨"buyer", none, [⟨none, "S"⟩]⟩)], [], noContactsMsg) ∧
    ([("99", (⟨"buyer", none, [⟨none, "S"⟩]⟩ : Inquiry))] : List (String × Inquiry)) ≠ [] ∧
    lookupA "99" [("99", (⟨"buyer", none, [⟨none, "S"⟩]⟩ : Inquiry))] ≠ none := by
  refine ⟨by decide, by decide, by decide⟩

/-- C7 witness: the no-match branch leaves the store unchanged, and the
    zero-contact branch stores the record while replying no contacts. -/
theorem c7_inquiry_creation_witness :
    performSearch envOkEmpty ({} : Request) = some [] ∧
    performSearchAndFormat envOkEmpty [] {} "buyer" = some ([], [], noSuppliersMsg) ∧
    performSearch envNoContact ({} : Request) = some [⟨"Prod", "390001", none, "S"⟩] ∧
    (∃ sends msg, performSearchAndFormat envNoContact [] {} "buyer" =
      some (setA "99" ⟨"buyer", none, [⟨none, "S"⟩]⟩ [], sends, msg) ∧ msg = noContactsMsg) := by
  refine ⟨by decide, ?_, by decide, ?_⟩
  · exact (c7_inquiry_creation envOkEmpty [] {} "buyer" [] (by decide)).1 rfl
  · obtain ⟨sends, msg, hmain, hzero, _⟩ :=
      (c7_inquiry_creation envNoContact [] {} "buyer" [⟨"Prod", "390001", none, "S"⟩]
        (by decide)).2 (by decide)
    exact ⟨sends, msg, hmain, (hzero (by decide)).1⟩

/-- C8 (amended): an embedder failure is not caught anywhere: the search
    produces no reply at all and the webhook turn ends in a crash (an escaped
    exception), with the session left mid-dialogue; only an index-layer
    failure degrades to the empty match list, for which the buyer receives
    the no-suppliers message and the session still reaches END. -/
theorem c8_dependency_failures (env : Env) (w : World) (fromNumber body : String) (d : Request)
    (hx : extractInquiryId (jsTrim body) = none)
    (hs : lookupA fromNumber w.sessions = some ⟨SState.PROXIMITY, d⟩)
    (hhello : lowerStr (jsTrim body) ≠ "hello")
    (hno : lowerStr (jsTrim body) ≠ "no") (hstop : lowerStr (jsTrim body) ≠ "stop")
    (hv : lowerStr (jsTrim body) = "same" ∨ lowerStr (jsTrim body) = "pan") :
    (env.embedOk = false → ∀ inqs data2,
      performSearchAndFormat env inqs data2 fromNumber = none) ∧
    (env.embedOk = false →
      (handleMessage env w fromNumber body).out = Outcome.crash ∧
      lookupA fromNumber (handleMessage env w fromNumber body).world.sessions =
        some ⟨SState.PROXIMITY, { d with proximity := some (proxOf (lowerStr (jsTrim body))) }⟩) ∧
    (env.embedOk = true → env.indexOk = false →
      (handleMessage env w fromNumber body).out =
        Outcome.reply (noSuppliersMsg ++ searchAgainSuffix) ∧
      lookupA fromNumber (handleMessage env w fromNumber body).world.sessions =
        some ⟨SState.END, { d with proximity := some (proxOf (lowerStr (jsTrim body))) }⟩) := by
  refine ⟨?_, ?_, ?_⟩
  · intro hem inqs data2
    have hps : performSearch env data2 = none := by
      unfold performSearch
      rw [hem]
      simp
    unfold performSearchAndFormat
    rw [hps]
  · intro hem
    exact hm_at_proximity_embedFail env w fromNumber body d hx hs hhello hno hstop hv hem
  · intro hem hio
    have hcond : ¬ (lookupA fromNumber w.sessions = none ∨ lowerStr (jsTrim body) = "hello") := by
      simp [hs, hhello]
    have hterm : ¬ (lowerStr (jsTrim body) = "no" ∨ lowerStr (jsTrim body) = "stop") := by
      simp [hno, hstop]
    have hps : performSearch env { d with proximity := some (proxOf (lowerStr (jsTrim body))) } =
        some [] := by
      unfold performSearch
      rw [hem, if_pos rfl, hio]
      simp
    have hpsf : performSearchAndFormat env w.inquiries
        { d with proximity := some (proxOf (lowerStr (jsTrim body))) } fromNumber =
        some (w.inquiries, [], noSuppliersMsg) := by
      unfold performSearchAndFormat
      rw [hps]
      rfl
    simp only [handleMessage, hx]
    rw [if_neg hcond]
    simp only [hs, Option.getD_some]
    rw [if_neg hterm]
    simp only [stepState]
    rw [if_pos hv]
    simp only [hpsf]
    exact ⟨by simp [hno, hstop], by simp [lookupA_setA_self]⟩

/-- C8 counterexample: with the embedder failing at the terminal PROXIMITY
    turn the handler crashes and no reply is produced, in particular not the
    no-suppliers message the claim promises. -/
theorem c8_embed_counterexample :
    (handleMessage ⟨false, true, [], "1"⟩ (wAt SState.PROXIMITY) "u" "same").out =
      Outcome.crash ∧
    (handleMessage ⟨false, true, [], "1"⟩ (wAt SState.PROXIMITY) "u" "same").out ≠
      Outcome.reply noSuppliersMsg ∧
    (handleMessage ⟨false, true, [], "1"⟩ (wAt SState.PROXIMITY) "u" "same").out ≠
      Outcome.reply (noSuppliersMsg ++ searchAgainSuffix) := by
  refine ⟨by decide, by decide, by decide⟩

/-- C8 witness: the crash path under embedder failure and the degraded
    no-suppliers path under index failure, at concrete inputs. -/
theorem c8_dependency_failures_witness :
    (handleMessage ⟨false, true, [], "1"⟩ (wAt SState.PROXIMITY) "u" "same").out =
      Outcome.crash ∧
    ((handleMessage ⟨true, false, [], "1"⟩ (wAt SState.PROXIMITY) "u" "pan").out =
      Outcome.reply (noSuppliersMsg ++ searchAgainSuffix) ∧
    lookupA "u" (handleMessage ⟨true, false, [], "1"⟩
        (wAt SState.PROXIMITY) "u" "pan").world.sessions =
      some ⟨SState.END, { proximity := some Proximity.pan }⟩) := by
  constructor
  · exact ((c8_dependency_failures ⟨false, true, [], "1"⟩ (wAt SState.PROXIMITY) "u" "same" {}
      (by decide) (by decide) (by decide) (by decide) (by decide) (by decide)).2.1 rfl).1
  · exact (c8_dependency_failures ⟨true, false, [], "1"⟩ (wAt SState.PROXIMITY) "u" "pan" {}
      (by decide) (by decide) (by decide) (by decide) (by decide) (by decide)).2.2 rfl rfl

/-- C1: a well-formed six-turn conversation from no existing session — an
    opener, product and category answers (text or skip), a quantity answer
    (skip or a non-negative parse), a six-digit PIN code and a valid proximity
    answer — ends with the session in state END and the accumulated request
    holding exactly the non-skip answers: product and category verbatim when
    not skipped and absent when skipped, quantity the parsed number or null on
    skip, the PIN code string, and the validated proximity preference. -/
theorem c1_full_conversation (env : Env) (w : World) (fromN m0 m1 m2 m3 m4 m5 : String)
    (hem : env.embedOk = true)
    (hfresh : lookupA fromN w.sessions = none)
    (h0x : extractInquiryId (jsTrim m0) = none)
    (h0no : lowerStr (jsTrim m0) ≠ "no") (h0stop : lowerStr (jsTrim m0) ≠ "stop")
    (h1x : extractInquiryId (jsTrim m1) = none) (h1hello : lowerStr (jsTrim m1) ≠ "hello")
    (h1no : lowerStr (jsTrim m1) ≠ "no") (h1stop : lowerStr (jsTrim m1) ≠ "stop")
    (h2x : extractInquiryId (jsTrim m2) = none) (h2hello : lowerStr (jsTrim m2) ≠ "hello")
    (h2no : lowerStr (jsTrim m2) ≠ "no") (h2stop : lowerStr (jsTrim m2) ≠ "stop")
    (h3x : extractInquiryId (jsTrim m3) = none) (h3hello : lowerStr (jsTrim m3) ≠ "hello")
    (h3no : lowerStr (jsTrim m3) ≠ "no") (h3stop : lowerStr (jsTrim m3) ≠ "stop")
    (h3v : lowerStr (jsTrim m3) = "skip" ∨ ∃ q, jsParseFloat (jsTrim m3) = some q ∧ 0 ≤ q)
    (h4x : extractInquiryId (jsTrim m4) = none) (h4hello : lowerStr (jsTrim m4) ≠ "hello")
    (h4no : lowerStr (jsTrim m4) ≠ "no") (h4stop : lowerStr (jsTrim m4) ≠ "stop")
    (h4ns : lowerStr (jsTrim m4) ≠ "skip") (h4v : isSixDigits (jsTrim m4) = true)
    (h5x : extractInquiryId (jsTrim m5) = none) (h5hello : lowerStr (jsTrim m5) ≠ "hello")
    (h5no : lowerStr (jsTrim m5) ≠ "no") (h5stop : lowerStr (jsTrim m5) ≠ "stop")
    (h5v : lowerStr (jsTrim m5) = "same" ∨ lowerStr (jsTrim m5) = "pan") :
    lookupA fromN (runConv env w fromN [m0, m1, m2, m3, m4, m5]).sessions =
      some ⟨SState.END,
        { product_name := if lowerStr (jsTrim m1) = "skip" then none else some (jsTrim m1),
          category := if lowerStr (jsTrim m2) = "skip" then none else some (jsTrim m2),
          quantity := if lowerStr (jsTrim m3) = "skip" then none else jsParseFloat (jsTrim m3),
          pincode := some (jsTrim m4),
          proximity := some (proxOf (lowerStr (jsTrim m5))) }⟩ := by
  simp only [runConv, List.foldl_cons, List.foldl_nil]
  have e0 : (handleMessage env w fromN m0).world = (⟨setA fromN ⟨SState.PRODUCT_NAME, ({} : Request)⟩ w.sessions, w.inquiries⟩ : World) := by
    rw [hm_start_fresh env w fromN m0 h0x hfresh h0no h0stop]
  rw [e0]
  have e1 : (handleMessage env (⟨setA fromN ⟨SState.PRODUCT_NAME, ({} : Request)⟩ w.sessions, w.inquiries⟩ : World) fromN m1).world = (⟨setA fromN ⟨SState.CATEGORY, (if lowerStr (jsTrim m1) = "skip" then ({} : Request) else { product_name := some (jsTrim m1) })⟩ w.sessions, w.inquiries⟩ : World) := by
    rw [hm_at_product env (⟨setA fromN ⟨SState.PRODUCT_NAME, ({} : Request)⟩ w.sessions, w.inquiries⟩ : World) fromN m1 {} h1x (lookupA_setA_self _ _ _) h1hello h1no h1stop]
    dsimp only
    rw [setA_setA]
  rw [e1]
  have e2 : (handleMessage env (⟨setA fromN ⟨SState.CATEGORY, (if lowerStr (jsTrim m1) = "skip" then ({} : Request) else { product_name := some (jsTrim m1) })⟩ w.sessions, w.inquiries⟩ : World) fromN m2).world = (⟨setA fromN ⟨SState.QUANTITY, (if lowerStr (jsTrim m2) = "skip" then (if lowerStr (jsTrim m1) = "skip" then ({} : Request) else { product_name := some (jsTrim m1) }) else { (if lowerStr (jsTrim m1) = "skip" then ({} : Request) else { product_name := some (jsTrim m1) }) with category := some (jsTrim m2) })⟩ w.sessions, w.inquiries⟩ : World) := by
    rw [hm_at_category env (⟨setA fromN ⟨SState.CATEGORY, (if lowerStr (jsTrim m1) = "skip" then ({} : Request) else { product_name := some (jsTrim m1) })⟩ w.sessions, w.inquiries⟩ : World) fromN m2 (if lowerStr (jsTrim m1) = "skip" then ({} : Request) else { product_name := some (jsTrim m1) }) h2x
      (lookupA_setA_self _ _ _) h2hello h2no h2stop]
    dsimp only
    rw [setA_setA]
  rw [e2]
  by_cases hsk3 : lowerStr (jsTrim m3) = "skip"
  · have e3 : (handleMessage env (⟨setA fromN ⟨SState.QUANTITY, (if lowerStr (jsTrim m2) = "skip" then (if lowerStr (jsTrim m1) = "skip" then ({} : Request) else { product_name := some (jsTrim m1) }) else { (if lowerStr (jsTrim m1) = "skip" then ({} : Request) else { product_name := some (jsTrim m1) }) with category := some (jsTrim m2) })⟩ w.sessions, w.inquiries⟩ : World) fromN m3).world = (⟨setA fromN ⟨SState.PINCODE, { (if lowerStr (jsTrim m2) = "skip" then (if lowerStr (jsTrim m1) = "skip" then ({} : Request) else { product_name := some (jsTrim m1) }) else { (if lowerStr (jsTrim m1) = "skip" then ({} : Request) else { product_name := some (jsTrim m1) }) with category := some (jsTrim m2) }) with quantity := none }⟩ w.sessions, w.inquiries⟩ : World) := by
      rw [hm_at_quantity_skip env (⟨setA fromN ⟨SState.QUANTITY, (if lowerStr (jsTrim m2) = "skip" then (if lowerStr (jsTrim m1) = "skip" then ({} : Request) else { product_name := some (jsTrim m1) }) else { (if lowerStr (jsTrim m1) = "skip" then ({} : Request) else { product_name := some (jsTrim m1) }) with category := some (jsTrim m2) })⟩ w.sessions, w.inquiries⟩ : World) fromN m3 (if lowerStr (jsTrim m2) = "skip" then (if lowerStr (jsTrim m1) = "skip" then ({} : Request) else { product_name := some (jsTrim m1) }) else { (if lowerStr (jsTrim m1) = "skip" then ({} : Request) else { product_name := some (jsTrim m1) }) with category := some (jsTrim m2) }) h3x
        (lookupA_setA_self _ _ _) h3hello h3no h3stop hsk3]
      dsimp only
      rw [setA_setA]
    rw [e3]
    have e4 : (handleMessage env (⟨setA fromN ⟨SState.PINCODE, { (if lowerStr (jsTrim m2) = "skip" then (if lowerStr (jsTrim m1) = "skip" then ({} : Request) else { product_name := some (jsTrim m1) }) else { (if lowerStr (jsTrim m1) = "skip" then ({} : Request) else { product_name := some (jsTrim m1) }) with category := some (jsTrim m2) }) with quantity := none }⟩ w.sessions, w.inquiries⟩ : World) fromN m4).world = (⟨setA fromN ⟨SState.PROXIMITY, { { (if lowerStr (jsTrim m2) = "skip" then (if lowerStr (jsTrim m1) = "skip" then ({} : Request) else { product_name := some (jsTrim m1) }) else { (if lowerStr (jsTrim m1) = "skip" then ({} : Request) else { product_name := some (jsTrim m1) }) with category := some (jsTrim m2) }) with quantity := none } with pincode := some (jsTrim m4) }⟩ w.sessions, w.inquiries⟩ : World) := by
      rw [hm_at_pincode_six env (⟨setA fromN ⟨SState.PINCODE, { (if lowerStr (jsTrim m2) = "skip" then (if lowerStr (jsTrim m1) = "skip" then ({} : Request) else { product_name := some (jsTrim m1) }) else { (if lowerStr (jsTrim m1) = "skip" then ({} : Request) else { product_name := some (jsTrim m1) }) with category := some (jsTrim m2) }) with quantity := none }⟩ w.sessions, w.inquiries⟩ : World) fromN m4 { (if lowerStr (jsTrim m2) = "skip" then (if lowerStr (jsTrim m1) = "skip" then ({} : Request) else { product_name := some (jsTrim m1) }) else { (if lowerStr (jsTrim m1) = "skip" then ({} : Request) else { product_name := some (jsTrim m1) }) with category := some (jsTrim m2) }) with quantity := none } h4x
        (lookupA_setA_self _ _ _) h4hello h4no h4stop h4ns h4v]
      dsimp only
      rw [setA_setA]
    rw [e4]
    have e5 := hm_at_proximity_valid env (⟨setA fromN ⟨SState.PROXIMITY, { { (if lowerStr (jsTrim m2) = "skip" then (if lowerStr (jsTrim m1) = "skip" then ({} : Request) else { product_name := some (jsTrim m1) }) else { (if lowerStr (jsTrim m1) = "skip" then ({} : Request) else { product_name := some (jsTrim m1) }) with category := some (jsTrim m2) }) with quantity := none } with pincode := some (jsTrim m4) }⟩ w.sessions, w.inquiries⟩ : World) fromN m5 { { (if lowerStr (jsTrim m2) = "skip" then (if lowerStr (jsTrim m1) = "skip" then ({} : Request) else { product_name := some (jsTrim m1) }) else { (if lowerStr (jsTrim m1) = "skip" then ({} : Request) else { product_name := some (jsTrim m1) }) with category := some (jsTrim m2) }) with quantity := none } with pincode := some (jsTrim m4) } h5x
      (lookupA_setA_self _ _ _) h5hello h5no h5stop h5v hem
    rw [e5]
    by_cases hsk1 : lowerStr (jsTrim m1) = "skip" <;>
      by_cases hsk2 : lowerStr (jsTrim m2) = "skip" <;>
      simp [hsk1, hsk2, hsk3]
  · rcases h3v with h | ⟨q, hq, hq0⟩
    · exact absurd h hsk3
    · have e3 : (handleMessage env (⟨setA fromN ⟨SState.QUANTITY, (if lowerStr (jsTrim m2) = "skip" then (if lowerStr (jsTrim m1) = "skip" then ({} : Request) else { product_name := some (jsTrim m1) }) else { (if lowerStr (jsTrim m1) = "skip" then ({} : Request) else { product_name := some (jsTrim m1) }) with category := some (jsTrim m2) })⟩ w.sessions, w.inquiries⟩ : World) fromN m3).world = (⟨setA fromN ⟨SState.PINCODE, { (if lowerStr (jsTrim m2) = "skip" then (if lowerStr (jsTrim m1) = "skip" then ({} : Request) else { product_name := some (jsTrim m1) }) else { (if lowerStr (jsTrim m1) = "skip" then ({} : Request) else { product_name := some (jsTrim m1) }) with category := some (jsTrim m2) }) with quantity := some q }⟩ w.sessions, w.inquiries⟩ : World) := by
        rw [hm_at_quantity_valid env (⟨setA fromN ⟨SState.QUANTITY, (if lowerStr (jsTrim m2) = "skip" then (if lowerStr (jsTrim m1) = "skip" then ({} : Request) else { product_name := some (jsTrim m1) }) else { (if lowerStr (jsTrim m1) = "skip" then ({} : Request) else { product_name := some (jsTrim m1) }) with category := some (jsTrim m2) })⟩ w.sessions, w.inquiries⟩ : World) fromN m3 (if lowerStr (jsTrim m2) = "skip" then (if lowerStr (jsTrim m1) = "skip" then ({} : Request) else { product_name := some (jsTrim m1) }) else { (if lowerStr (jsTrim m1) = "skip" then ({} : Request) else { product_name := some (jsTrim m1) }) with category := some (jsTrim m2) }) q h3x
          (lookupA_setA_self _ _ _) h3hello h3no h3stop hsk3 hq hq0]
        dsimp only
        rw [setA_setA]
      rw [e3]
      have e4 : (handleMessage env (⟨setA fromN ⟨SState.PINCODE, { (if lowerStr (jsTrim m2) = "skip" then (if lowerStr (jsTrim m1) = "skip" then ({} : Request) else { product_name := some (jsTrim m1) }) else { (if lowerStr (jsTrim m1) = "skip" then ({} : Request) else { product_name := some (jsTrim m1) }) with category := some (jsTrim m2) }) with quantity := some q }⟩ w.sessions, w.inquiries⟩ : World) fromN m4).world = (⟨setA fromN ⟨SState.PROXIMITY, { { (if lowerStr (jsTrim m2) = "skip" then (if lowerStr (jsTrim m1) = "skip" then ({} : Request) else { product_name := some (jsTrim m1) }) else { (if lowerStr (jsTrim m1) = "skip" then ({} : Request) else { product_name := some (jsTrim m1) }) with category := some (jsTrim m2) }) with quantity := some q } with pincode := some (jsTrim m4) }⟩ w.sessions, w.inquiries⟩ : World) := by
        rw [hm_at_pincode_six env (⟨setA fromN ⟨SState.PINCODE, { (if lowerStr (jsTrim m2) = "skip" then (if lowerStr (jsTrim m1) = "skip" then ({} : Request) else { product_name := some (jsTrim m1) }) else { (if lowerStr (jsTrim m1) = "skip" then ({} : Request) else { product_name := some (jsTrim m1) }) with category := some (jsTrim m2) }) with quantity := some q }⟩ w.sessions, w.inquiries⟩ : World) fromN m4 { (if lowerStr (jsTrim m2) = "skip" then (if lowerStr (jsTrim m1) = "skip" then ({} : Request) else { product_name := some (jsTrim m1) }) else { (if lowerStr (jsTrim m1) = "skip" then ({} : Request) else { product_name := some (jsTrim m1) }) with category := some (jsTrim m2) }) with quantity := some q } h4x
          (lookupA_setA_self _ _ _) h4hello h4no h4stop h4ns h4v]
        dsimp only
        rw [setA_setA]
      rw [e4]
      have e5 := hm_at_proximity_valid env (⟨setA fromN ⟨SState.PROXIMITY, { { (if lowerStr (jsTrim m2) = "skip" then (if lowerStr (jsTrim m1) = "skip" then ({} : Request) else { product_name := some (jsTrim m1) }) else { (if lowerStr (jsTrim m1) = "skip" then ({} : Request) else { product_name := some (jsTrim m1) }) with category := some (jsTrim m2) }) with quantity := some q } with pincode := some (jsTrim m4) }⟩ w.sessions, w.inquiries⟩ : World) fromN m5 { { (if lowerStr (jsTrim m2) = "skip" then (if lowerStr (jsTrim m1) = "skip" then ({} : Request) else { product_name := some (jsTrim m1) }) else { (if lowerStr (jsTrim m1) = "skip" then ({} : Request) else { product_name := some (jsTrim m1) }) with category := some (jsTrim m2) }) with quantity := some q } with pincode := some (jsTrim m4) } h5x
        (lookupA_setA_self _ _ _) h5hello h5no h5stop h5v hem
      rw [e5]
      by_cases hsk1 : lowerStr (jsTrim m1) = "skip" <;>
        by_cases hsk2 : lowerStr (jsTrim m2) = "skip" <;>
        simp [hsk1, hsk2, hsk3, hq]


/-- C1 witness: the conversation hello, Sodium, skip, 500, 390013, same ends
    at END with product Sodium, no category, quantity 500, the PIN code and
    the same-state preference. -/
theorem c1_full_conversation_witness :
    lookupA "u" ((⟨[], []⟩ : World)).sessions = none ∧
    isSixDigits (jsTrim "390013") = true ∧
    (lowerStr (jsTrim "same") = "same" ∨ lowerStr (jsTrim "same") = "pan") ∧
    lookupA "u" (runConv envOkEmpty ⟨[], []⟩ "u"
        ["hello", "Sodium", "skip", "500", "390013", "same"]).sessions =
      some ⟨SState.END,
        ⟨some "Sodium", none, some 500, some "390013", some Proximity.same⟩⟩ := by
  refine ⟨by decide, by decide, Or.inl (by decide), ?_⟩
  have h := c1_full_conversation envOkEmpty ⟨[], []⟩ "u" "hello" "Sodium" "skip" "500" "390013"
    "same" (by decide) (by decide)
    (by decide) (by decide) (by decide)
    (by decide) (by decide) (by decide) (by decide)
    (by decide) (by decide) (by decide) (by decide)
    (by decide) (by decide) (by decide) (by decide)
    (Or.inr ⟨500, by decide, by decide⟩)
    (by decide) (by decide) (by decide) (by decide) (by decide) (by decide)
    (by decide) (by decide) (by decide) (by decide)
    (Or.inl (by decide))
  rw [h]
  decide
